import Mathlib

/-!
Verification of the application lifecycle state machine and input-event
dispatch layer of the `ggez` fork (files `src/app.rs`, `src/event.rs`,
`src/audio.rs`), against its natural-language specification.

The Rust code is shallowly embedded: each dispatcher function becomes a pure
Lean function from an explicit context value to a new context, an ordered
trace of observable invocations (user-handler callbacks and collaborator
operations), and an "exit requested" flag mirroring `event_loop.exit()`.
The user handler and the graphics collaborator are oracles: a `Handler`
record fixes which callbacks fail and how `on_error` classifies each origin.
Coordinates and deltas are modelled over `ℚ` (the dispatch layer only moves
them around and adds or divides them; no float rounding is relevant to any
claim, and exact arithmetic keeps every definition decidable).
-/

namespace Ggez

/-- Mouse buttons (`winit::event::MouseButton`, reduced to the variants the
dispatch layer distinguishes). -/
inductive MouseButton where
  | left
  | right
  | middle
  | other (n : Nat)
  deriving DecidableEq

/-- Touch phases (`winit::event::TouchPhase`). -/
inductive TouchPhase where
  | started
  | moved
  | ended
  | cancelled
  deriving DecidableEq

/-- `ErrorOrigin` from `src/event.rs`: tags which callback site produced an
error. -/
inductive ErrorOrigin where
  | load
  | update
  | draw
  | mouseButtonDownEvent
  | mouseButtonUpEvent
  | mouseMotionEvent
  | rawMouseMotionEvent
  | mouseEnterOrLeave
  | mouseWheelEvent
  | keyDownEvent
  | keyUpEvent
  | textInputEvent
  | touchEvent
  | gamepadButtonDownEvent
  | gamepadButtonUpEvent
  | gamepadAxisEvent
  | focusEvent
  | quitEvent
  | resizeEvent
  deriving DecidableEq

/-- Modelled from the spec: `MouseContext` (`crate::input::mouse`) is not under
`src/`; spec section 3 "MouseState" gives its fields: absolute position, the
cumulative delta since the last per-tick reset, the per-button pressed set and
the previous-tick pressed set.  `handle_move` updates the absolute position and
accumulates the displacement into the cumulative delta; `handle_motion`
accumulates a raw device delta; `last_delta` reads the accumulated delta
(section 4.4: the delta passed on is "cumulative since the last per-tick
reset, not since the previous raw event"); `set_button` updates the pressed
set; `reset_delta` zeroes the delta; `save_mouse_state` commits the
previous-tick snapshot. -/
structure MouseContext where
  pos_x : ℚ
  pos_y : ℚ
  delta_x : ℚ
  delta_y : ℚ
  buttons : List MouseButton
  prev_buttons : List MouseButton
  deriving DecidableEq

def MouseContext.handle_move (m : MouseContext) (x y : ℚ) : MouseContext :=
  { m with
    delta_x := m.delta_x + (x - m.pos_x)
    delta_y := m.delta_y + (y - m.pos_y)
    pos_x := x
    pos_y := y }

def MouseContext.handle_motion (m : MouseContext) (dx dy : ℚ) : MouseContext :=
  { m with delta_x := m.delta_x + dx, delta_y := m.delta_y + dy }

def MouseContext.last_delta (m : MouseContext) : ℚ × ℚ :=
  (m.delta_x, m.delta_y)

def MouseContext.set_button (m : MouseContext) (b : MouseButton) (pressed : Bool) :
    MouseContext :=
  if pressed then
    { m with buttons := if b ∈ m.buttons then m.buttons else b :: m.buttons }
  else
    { m with buttons := m.buttons.filter (fun c => decide (c ≠ b)) }

def MouseContext.reset_delta (m : MouseContext) : MouseContext :=
  { m with delta_x := 0, delta_y := 0 }

def MouseContext.save_state (m : MouseContext) : MouseContext :=
  { m with prev_buttons := m.buttons }

/-- Modelled from the spec: `KeyboardContext` (`crate::input::keyboard`) is not
under `src/`.  Spec section 3 "KeyboardState": current pressed set,
previous-tick pressed set, active modifier set; section 4.4: the repeat flag is
computed from "was already pressed".  Keys and modifier sets are opaque `Nat`
codes; no claim depends on their structure. -/
structure KeyboardContext where
  active_modifiers : Nat
  pressed_keys : List Nat
  prev_pressed_keys : List Nat
  repeated : Bool
  deriving DecidableEq

def KeyboardContext.set_key (k : KeyboardContext) (key : Nat) (pressed : Bool) :
    KeyboardContext :=
  if pressed then
    { k with
      repeated := decide (key ∈ k.pressed_keys)
      pressed_keys := if key ∈ k.pressed_keys then k.pressed_keys else key :: k.pressed_keys }
  else
    { k with repeated := false, pressed_keys := k.pressed_keys.erase key }

def KeyboardContext.save_state (k : KeyboardContext) : KeyboardContext :=
  { k with prev_pressed_keys := k.pressed_keys }

/-- Queued gamepad event payloads (`gilrs::EventType`, reduced to the arms the
drain loop in `about_to_wait` distinguishes; `other` covers the `_ => {}`
arm). -/
inductive GamepadEventType where
  | buttonPressed (button : Nat)
  | buttonReleased (button : Nat)
  | axisChanged (axis : Nat) (value : ℚ)
  | other
  deriving DecidableEq

/-- The `ContextFields` flags the run loop reads (`quit_requested`,
`continuing`). -/
structure ContextFields where
  quit_requested : Bool
  continuing : Bool
  deriving DecidableEq

/-- The aggregate `Context`, restricted to the sub-contexts the embedded
dispatch layer touches.  The gamepad sub-context is its queue of pending
events (`next_event` pops the head); the time sub-context is a tick counter;
`scale_factor` stands for `gfx.win.window.scale_factor()`. -/
structure Ctx where
  fields : ContextFields
  mouse : MouseContext
  keyboard : KeyboardContext
  gamepad : List (Nat × GamepadEventType)
  time_ticks : Nat
  scale_factor : ℚ
  deriving DecidableEq

/-- One observable invocation made by the dispatch layer: a user-handler
callback, or a collaborator operation (clock tick, frame bracketing, the
per-tick state commits). -/
inductive Call where
  | load
  | update
  | draw
  | quitEvent
  | onError (origin : ErrorOrigin)
  | resizeEvent (w h : ℚ)
  | focusEvent (gained : Bool)
  | keyDownEvent (key : Nat) (mods : Nat) (repeated : Bool)
  | keyUpEvent (key : Nat) (mods : Nat)
  | mouseWheelEvent (x y : ℚ)
  | mouseButtonDownEvent (b : MouseButton) (x y : ℚ)
  | mouseButtonUpEvent (b : MouseButton) (x y : ℚ)
  | mouseMotionEvent (x y dx dy : ℚ)
  | rawMouseMotionEvent (dx dy : ℚ)
  | mouseEnterOrLeave (entered : Bool)
  | touchEvent (phase : TouchPhase) (x y : ℚ)
  | gamepadButtonDownEvent (button : Nat) (id : Nat)
  | gamepadButtonUpEvent (button : Nat) (id : Nat)
  | gamepadAxisEvent (axis : Nat) (value : ℚ) (id : Nat)
  | timeTick
  | beginFrame
  | endFrame
  | resetDelta
  | saveKeyboardState
  | saveMouseState
  deriving DecidableEq

def Call.isOnError : Call → Bool
  | .onError _ => true
  | _ => false

/-- Oracle for the user handler and the graphics collaborator: which callback
invocations return `Err`, what `quit_event` returns (`none` models `Err(e)`,
`some b` models `Ok(b)`), and how `on_error` classifies each origin (`true` =
fatal).  The error payloads themselves are opaque in the Rust code (only
`Debug`-printed), so they are elided. -/
structure Handler where
  loadErr : Bool
  updateErr : Bool
  drawErr : Bool
  quitRes : Option Bool
  resizeErr : Bool
  focusErr : Bool
  keyDownErr : Bool
  keyUpErr : Bool
  wheelErr : Bool
  mouseDownErr : Bool
  mouseUpErr : Bool
  motionErr : Bool
  rawMotionErr : Bool
  enterLeaveErr : Bool
  touchErr : Bool
  gamepadDownErr : Bool
  gamepadUpErr : Bool
  gamepadAxisErr : Bool
  fatal : ErrorOrigin → Bool
  beginFrameErr : Bool
  endFrameErr : Bool

/-- The result of one embedded handler entry point: the updated context, the
ordered trace of observable invocations, and whether `event_loop.exit()` was
requested. -/
structure StepOut where
  ctx : Ctx
  calls : List Call
  exit : Bool

/-- `AppHandler::catch_error` (`src/app.rs` lines 263-279): on an error, log
it and invoke the user handler's `on_error`; when that reports fatal, call
`event_loop.exit()` and return `true`.  Returns the emitted calls and the
returned boolean. -/
def catch_error (h : Handler) (isErr : Bool) (origin : ErrorOrigin) :
    List Call × Bool :=
  if isErr then
    ([Call.onError origin], h.fatal origin)
  else
    ([], false)

/-- `AppHandler::new_events` (`src/app.rs` lines 244-261), shared by every
lifecycle state: run the quit protocol when `quit_requested` is set (call
`quit_event`, then unconditionally clear the flag; `Ok(false)` additionally
clears `continuing`; `Err` goes through `catch_error`), then exit when
`continuing` is false.  Setting the control flow to `Poll` has no observable
effect in this model. -/
def new_events (h : Handler) (ctx : Ctx) : StepOut :=
  let (ctx1, calls, ex) :=
    if ctx.fields.quit_requested then
      let ctx' := { ctx with fields := { ctx.fields with quit_requested := false } }
      match h.quitRes with
      | some false =>
          ({ ctx' with fields := { ctx'.fields with continuing := false } },
           [Call.quitEvent], false)
      | some true => (ctx', [Call.quitEvent], false)
      | none =>
          let (c, e) := catch_error h true ErrorOrigin.quitEvent
          (ctx', Call.quitEvent :: c, e)
    else
      (ctx, [], false)
  { ctx := ctx1, calls := calls, exit := ex || !ctx1.fields.continuing }

/-- Raw window events (`winit::event::WindowEvent`, reduced to the arms the
dispatcher in `src/app.rs` matches; scroll deltas keep the line/pixel split of
`MouseScrollDelta`, pixel deltas in physical units; `other` covers the
`_x => {}` arm).  Window identifiers carry no information used by the code and
are elided. -/
inductive WindowEvent where
  | resized (w h : ℚ)
  | closeRequested
  | focused (gained : Bool)
  | modifiersChanged (mods : Nat)
  | keyboardInput (key : Nat) (pressed : Bool)
  | mouseWheelLine (x y : ℚ)
  | mouseWheelPixel (px py : ℚ)
  | mouseInput (pressed : Bool) (button : MouseButton)
  | cursorMoved (x y : ℚ)
  | touch (phase : TouchPhase) (x y : ℚ)
  | cursorEntered
  | cursorLeft
  | other
  deriving DecidableEq

/-- Raw device events (`winit::event::DeviceEvent`): only relative mouse
motion is distinguished by the code. -/
inductive DeviceEvent where
  | mouseMotion (dx dy : ℚ)
  | other
  deriving DecidableEq

/-- `event::process_window_event` (`src/event.rs` lines 330-383): normalizer
bookkeeping performed before dispatch.  The graphics `resize` and the
scale-factor arm act only on collaborators outside this model. -/
def process_window_event (ctx : Ctx) (e : WindowEvent) : Ctx :=
  match e with
  | .cursorMoved x y => { ctx with mouse := ctx.mouse.handle_move x y }
  | .mouseInput pressed b => { ctx with mouse := ctx.mouse.set_button b pressed }
  | .modifiersChanged m =>
      { ctx with keyboard := { ctx.keyboard with active_modifiers := m } }
  | .keyboardInput key pressed =>
      { ctx with keyboard := ctx.keyboard.set_key key pressed }
  | _ => ctx

/-- `event::process_device_event` (`src/event.rs` lines 316-324). -/
def process_device_event (ctx : Ctx) (e : DeviceEvent) : Ctx :=
  match e with
  | .mouseMotion dx dy => { ctx with mouse := ctx.mouse.handle_motion dx dy }
  | .other => ctx

/-- `AppHandler::<Running>::window_event` (`src/app.rs` lines 339-464): feed
the event through `process_window_event`, then dispatch exactly one user
callback per arm, routing its result through `catch_error`.  The
`CloseRequested` arm runs the quit protocol without touching
`quit_requested`. -/
def window_event (h : Handler) (ctx : Ctx) (e : WindowEvent) : StepOut :=
  let ctx := process_window_event ctx e
  match e with
  | .resized w ht =>
      let (c, ex) := catch_error h h.resizeErr ErrorOrigin.resizeEvent
      ⟨ctx, Call.resizeEvent w ht :: c, ex⟩
  | .closeRequested =>
      match h.quitRes with
      | some false =>
          ⟨{ ctx with fields := { ctx.fields with continuing := false } },
           [Call.quitEvent], false⟩
      | some true => ⟨ctx, [Call.quitEvent], false⟩
      | none =>
          let (c, ex) := catch_error h true ErrorOrigin.quitEvent
          ⟨ctx, Call.quitEvent :: c, ex⟩
  | .focused gained =>
      let (c, ex) := catch_error h h.focusErr ErrorOrigin.focusEvent
      ⟨ctx, Call.focusEvent gained :: c, ex⟩
  | .modifiersChanged _ => ⟨ctx, [], false⟩
  | .keyboardInput key pressed =>
      let mods := ctx.keyboard.active_modifiers
      let rep := ctx.keyboard.repeated
      if pressed then
        let (c, ex) := catch_error h h.keyDownErr ErrorOrigin.keyDownEvent
        ⟨ctx, Call.keyDownEvent key mods rep :: c, ex⟩
      else
        let (c, ex) := catch_error h h.keyUpErr ErrorOrigin.keyUpEvent
        ⟨ctx, Call.keyUpEvent key mods :: c, ex⟩
  | .mouseWheelLine x y =>
      let (c, ex) := catch_error h h.wheelErr ErrorOrigin.mouseWheelEvent
      ⟨ctx, Call.mouseWheelEvent x y :: c, ex⟩
  | .mouseWheelPixel px py =>
      let x := px / ctx.scale_factor
      let y := py / ctx.scale_factor
      let (c, ex) := catch_error h h.wheelErr ErrorOrigin.mouseWheelEvent
      ⟨ctx, Call.mouseWheelEvent x y :: c, ex⟩
  | .mouseInput pressed button =>
      let px := ctx.mouse.pos_x
      let py := ctx.mouse.pos_y
      if pressed then
        let (c, ex) := catch_error h h.mouseDownErr ErrorOrigin.mouseButtonDownEvent
        ⟨ctx, Call.mouseButtonDownEvent button px py :: c, ex⟩
      else
        let (c, ex) := catch_error h h.mouseUpErr ErrorOrigin.mouseButtonUpEvent
        ⟨ctx, Call.mouseButtonUpEvent button px py :: c, ex⟩
  | .cursorMoved _ _ =>
      let px := ctx.mouse.pos_x
      let py := ctx.mouse.pos_y
      let d := ctx.mouse.last_delta
      let (c, ex) := catch_error h h.motionErr ErrorOrigin.mouseMotionEvent
      ⟨ctx, Call.mouseMotionEvent px py d.1 d.2 :: c, ex⟩
  | .touch phase x y =>
      let (c, ex) := catch_error h h.touchErr ErrorOrigin.touchEvent
      ⟨ctx, Call.touchEvent phase x y :: c, ex⟩
  | .cursorEntered =>
      let (c, ex) := catch_error h h.enterLeaveErr ErrorOrigin.mouseEnterOrLeave
      ⟨ctx, Call.mouseEnterOrLeave true :: c, ex⟩
  | .cursorLeft =>
      let (c, ex) := catch_error h h.enterLeaveErr ErrorOrigin.mouseEnterOrLeave
      ⟨ctx, Call.mouseEnterOrLeave false :: c, ex⟩
  | .other => ⟨ctx, [], false⟩

/-- `AppHandler::<Running>::device_event` (`src/app.rs` lines 466-480): feed
the event through `process_device_event`; for relative mouse motion invoke
`raw_mouse_motion_event`.  Line 477 of the source passes `delta.0` for both
arguments, so the second argument of the emitted call is `dx`, not `dy`. -/
def device_event (h : Handler) (ctx : Ctx) (e : DeviceEvent) : StepOut :=
  let ctx := process_device_event ctx e
  match e with
  | .mouseMotion dx _dy =>
      let (c, ex) := catch_error h h.rawMotionErr ErrorOrigin.rawMouseMotionEvent
      ⟨ctx, Call.rawMouseMotionEvent dx dx :: c, ex⟩
  | .other => ⟨ctx, [], false⟩

/-- The gamepad drain loop inside `about_to_wait` (`src/app.rs` lines
487-518): pop queued events until the source reports none; each recognized
event dispatches its callback through `catch_error`; a fatal result returns
from `about_to_wait` immediately (leaving the rest of the queue).  Returns the
emitted calls, the remaining queue, and whether the drain aborted the tick. -/
def drain_gamepad (h : Handler) :
    List (Nat × GamepadEventType) → List Call × List (Nat × GamepadEventType) × Bool
  | [] => ([], [], false)
  | (id, ev) :: rest =>
    match ev with
    | .buttonPressed b =>
        let (c, ex) := catch_error h h.gamepadDownErr ErrorOrigin.gamepadButtonDownEvent
        if ex then (Call.gamepadButtonDownEvent b id :: c, rest, true)
        else
          let (cs, rem, ab) := drain_gamepad h rest
          (Call.gamepadButtonDownEvent b id :: (c ++ cs), rem, ab)
    | .buttonReleased b =>
        let (c, ex) := catch_error h h.gamepadUpErr ErrorOrigin.gamepadButtonUpEvent
        if ex then (Call.gamepadButtonUpEvent b id :: c, rest, true)
        else
          let (cs, rem, ab) := drain_gamepad h rest
          (Call.gamepadButtonUpEvent b id :: (c ++ cs), rem, ab)
    | .axisChanged a v =>
        let (c, ex) := catch_error h h.gamepadAxisErr ErrorOrigin.gamepadAxisEvent
        if ex then (Call.gamepadAxisEvent a v id :: c, rest, true)
        else
          let (cs, rem, ab) := drain_gamepad h rest
          (Call.gamepadAxisEvent a v id :: (c ++ cs), rem, ab)
    | .other => drain_gamepad h rest

/-- The tail of `about_to_wait` after `draw` has completed without a fatal
error (`src/app.rs` lines 540-553): `end_frame` (its failure requests exit
but does not abort), then reset the cumulative mouse delta and commit the
keyboard and mouse previous-tick snapshots, exactly once. -/
def frame_end_and_commit (h : Handler) (ctx : Ctx) (calls : List Call)
    (exitFlag : Bool) : StepOut :=
  let ctx := { ctx with mouse := ctx.mouse.reset_delta }
  let ctx := { ctx with keyboard := ctx.keyboard.save_state }
  let ctx := { ctx with mouse := ctx.mouse.save_state }
  ⟨ctx,
   calls ++ [Call.endFrame, Call.resetDelta, Call.saveKeyboardState, Call.saveMouseState],
   exitFlag || h.endFrameErr⟩

/-- `AppHandler::<Running>::about_to_wait` (`src/app.rs` lines 482-554), the
per-tick frame drive: clock tick; gamepad drain (a fatal error returns); user
`update` through `catch_error` (fatal returns); `begin_frame` (an error
requests exit but execution continues); user `draw` with the special-cased
inline error handling (a fatal `on_error` verdict returns before `end_frame`);
then `frame_end_and_commit`. -/
def about_to_wait (h : Handler) (ctx : Ctx) : StepOut :=
  let ctx1 := { ctx with time_ticks := ctx.time_ticks + 1 }
  let (gcalls, grem, gabort) := drain_gamepad h ctx1.gamepad
  let ctx2 := { ctx1 with gamepad := grem }
  let calls1 := Call.timeTick :: gcalls
  if gabort then ⟨ctx2, calls1, true⟩
  else
    let (uc, uex) := catch_error h h.updateErr ErrorOrigin.update
    let calls2 := calls1 ++ [Call.update] ++ uc
    if uex then ⟨ctx2, calls2, true⟩
    else
      let bfExit := h.beginFrameErr
      let calls3 := calls2 ++ [Call.beginFrame]
      if h.drawErr then
        let calls4 := calls3 ++ [Call.draw, Call.onError ErrorOrigin.draw]
        if h.fatal ErrorOrigin.draw then ⟨ctx2, calls4, true⟩
        else frame_end_and_commit h ctx2 calls4 bfExit
      else
        frame_end_and_commit h ctx2 (calls3 ++ [Call.draw]) bfExit

/-- The default `EventHandler::touch_event` implementation (`src/event.rs`
lines 187-207): move the mouse to the touch location, then proxy the phase
onto the mouse model — `Started` presses the left button and invokes
`mouse_button_down_event`; `Moved` invokes `mouse_motion_event` with the
accumulated delta; `Ended`/`Cancelled` release the left button and invoke
`mouse_button_up_event`.  The third component records whether the inner
callback returned an error (propagated by `?`). -/
def touch_event_default (h : Handler) (ctx : Ctx) (phase : TouchPhase) (x y : ℚ) :
    Ctx × List Call × Bool :=
  let ctx := { ctx with mouse := ctx.mouse.handle_move x y }
  match phase with
  | .started =>
      let ctx := { ctx with mouse := ctx.mouse.set_button MouseButton.left true }
      (ctx, [Call.mouseButtonDownEvent MouseButton.left x y], h.mouseDownErr)
  | .moved =>
      let d := ctx.mouse.last_delta
      (ctx, [Call.mouseMotionEvent x y d.1 d.2], h.motionErr)
  | .ended =>
      let ctx := { ctx with mouse := ctx.mouse.set_button MouseButton.left false }
      (ctx, [Call.mouseButtonUpEvent MouseButton.left x y], h.mouseUpErr)
  | .cancelled =>
      let ctx := { ctx with mouse := ctx.mouse.set_button MouseButton.left false }
      (ctx, [Call.mouseButtonUpEvent MouseButton.left x y], h.mouseUpErr)

/-- The lifecycle phases held by the `Application` enum in `src/app.rs`. -/
inductive Phase where
  | starting
  | running
  | suspended
  deriving DecidableEq

/-- `GgezApplicationHandler`: the current lifecycle phase together with the
context it wraps (the user-handler value itself is the oracle and carries no
state of its own in this model). -/
structure App where
  phase : Phase
  ctx : Ctx
  deriving DecidableEq

/-- Result of one top-level platform callback. -/
structure AppOut where
  app : App
  calls : List Call
  exit : Bool
  deriving DecidableEq

/-- `GgezApplicationHandler::resumed` (`src/app.rs` lines 130-146) combined
with the per-state handlers: from `Starting`, invoke `load`, route its result
through `catch_error` (the returned flag is discarded, but a fatal verdict has
already requested exit), and transition to `Running` unconditionally
(`src/app.rs` lines 298-305); from `Suspended`, transition to `Running` with
no callback; in `Running`, the notification is a no-op (`app => app`). -/
def app_resumed (h : Handler) (a : App) : AppOut :=
  match a.phase with
  | .starting =>
      let (c, ex) := catch_error h h.loadErr ErrorOrigin.load
      ⟨⟨Phase.running, a.ctx⟩, Call.load :: c, ex⟩
  | .suspended => ⟨⟨Phase.running, a.ctx⟩, [], false⟩
  | .running => ⟨a, [], false⟩

/-- `GgezApplicationHandler::suspended` (`src/app.rs` lines 148-160): only a
`Running` machine transitions to `Suspended`; no callback fires. -/
def app_suspended (a : App) : AppOut :=
  match a.phase with
  | .running => ⟨⟨Phase.suspended, a.ctx⟩, [], false⟩
  | _ => ⟨a, [], false⟩

/-- `GgezApplicationHandler::new_events` (`src/app.rs` lines 121-128): runs
the shared `AppHandler::new_events` in every phase. -/
def app_new_events (h : Handler) (a : App) : AppOut :=
  let r := new_events h a.ctx
  ⟨⟨a.phase, r.ctx⟩, r.calls, r.exit⟩

/-- `GgezApplicationHandler::window_event` (`src/app.rs` lines 162-176): the
event is forwarded only when the machine is `Running`; otherwise it is
silently dropped. -/
def app_window_event (h : Handler) (a : App) (e : WindowEvent) : AppOut :=
  match a.phase with
  | .running =>
      let r := window_event h a.ctx e
      ⟨⟨Phase.running, r.ctx⟩, r.calls, r.exit⟩
  | _ => ⟨a, [], false⟩

/-- `GgezApplicationHandler::device_event` (`src/app.rs` lines 178-192): the
event is forwarded only when the machine is `Running`. -/
def app_device_event (h : Handler) (a : App) (e : DeviceEvent) : AppOut :=
  match a.phase with
  | .running =>
      let r := device_event h a.ctx e
      ⟨⟨Phase.running, r.ctx⟩, r.calls, r.exit⟩
  | _ => ⟨a, [], false⟩

/-- `GgezApplicationHandler::about_to_wait` (`src/app.rs` lines 194-209): the
frame drive runs only while `Running`. -/
def app_about_to_wait (h : Handler) (a : App) : AppOut :=
  match a.phase with
  | .running =>
      let r := about_to_wait h a.ctx
      ⟨⟨Phase.running, r.ctx⟩, r.calls, r.exit⟩
  | _ => ⟨a, [], false⟩

/-- One callback of the platform event loop, as winit delivers them. -/
inductive PlatformEvent where
  | newEvents
  | resumed
  | suspended
  | window (e : WindowEvent)
  | device (e : DeviceEvent)
  | aboutToWait
  deriving DecidableEq

def app_step (h : Handler) (a : App) : PlatformEvent → AppOut
  | .newEvents => app_new_events h a
  | .resumed => app_resumed h a
  | .suspended => app_suspended a
  | .window e => app_window_event h a e
  | .device e => app_device_event h a e
  | .aboutToWait => app_about_to_wait h a

/-- The winit run loop, abstracted: platform callbacks are delivered in
order; once `event_loop.exit()` has been requested the loop stops driving the
machine (spec section 4.1: "the loop is signaled to terminate and no further
dispatch happens").  Returns the final machine and the concatenated trace. -/
def run_loop (h : Handler) : App → List PlatformEvent → App × List Call
  | a, [] => (a, [])
  | a, e :: rest =>
      let r := app_step h a e
      if r.exit then (r.app, r.calls)
      else
        let (a2, cs) := run_loop h r.app rest
        (a2, r.calls ++ cs)

/-- A context in its initial shape: not quitting, continuing, mouse and
keyboard at rest, no queued gamepad events. -/
def ctx0 : Ctx :=
  { fields := { quit_requested := false, continuing := true }
    mouse := { pos_x := 0, pos_y := 0, delta_x := 0, delta_y := 0,
               buttons := [], prev_buttons := [] }
    keyboard := { active_modifiers := 0, pressed_keys := [], prev_pressed_keys := [],
                  repeated := false }
    gamepad := []
    time_ticks := 0
    scale_factor := 1 }

/-- Set or clear the `quit_requested` flag of a context. -/
def set_quit (ctx : Ctx) (b : Bool) : Ctx :=
  { ctx with fields := { ctx.fields with quit_requested := b } }

/-- A handler oracle on which every callback succeeds, `quit_event` cancels
the quit (`Ok(true)`), and `on_error` keeps its default verdict (always
fatal). -/
def hOk : Handler :=
  { loadErr := false, updateErr := false, drawErr := false, quitRes := some true
    resizeErr := false, focusErr := false, keyDownErr := false, keyUpErr := false
    wheelErr := false, mouseDownErr := false, mouseUpErr := false, motionErr := false
    rawMotionErr := false, enterLeaveErr := false, touchErr := false
    gamepadDownErr := false, gamepadUpErr := false, gamepadAxisErr := false
    fatal := fun _ => true, beginFrameErr := false, endFrameErr := false }

/-- The callbacks the gamepad drain dispatches for a queue, one per
recognized event, in queue order. -/
def gamepad_calls : List (Nat × GamepadEventType) → List Call
  | [] => []
  | (id, .buttonPressed b) :: rest => Call.gamepadButtonDownEvent b id :: gamepad_calls rest
  | (id, .buttonReleased b) :: rest => Call.gamepadButtonUpEvent b id :: gamepad_calls rest
  | (id, .axisChanged a v) :: rest => Call.gamepadAxisEvent a v id :: gamepad_calls rest
  | (_, .other) :: rest => gamepad_calls rest

theorem drain_gamepad_no_abort (h : Handler) (q : List (Nat × GamepadEventType))
    (hq : (drain_gamepad h q).2.2 = false) :
    (drain_gamepad h q).1.filter (fun c => !c.isOnError) = gamepad_calls q
    ∧ (drain_gamepad h q).2.1 = [] := by
  induction q with
  | nil => simp [drain_gamepad, gamepad_calls]
  | cons p rest ih =>
      obtain ⟨id, ev⟩ := p
      rcases hd : drain_gamepad h rest with ⟨cs, rem, ab⟩
      rw [hd] at ih
      cases ev <;>
        simp only [drain_gamepad, catch_error, hd] at hq ⊢ <;>
        (try split_ifs at hq ⊢) <;>
        simp_all [gamepad_calls, Call.isOnError]

theorem endFrame_not_mem_drain (h : Handler) (q : List (Nat × GamepadEventType)) :
    Call.endFrame ∉ (drain_gamepad h q).1 := by
  induction q with
  | nil => simp [drain_gamepad]
  | cons p rest ih =>
      obtain ⟨id, ev⟩ := p
      rcases hd : drain_gamepad h rest with ⟨cs, rem, ab⟩
      rw [hd] at ih
      cases ev <;>
        simp only [drain_gamepad, catch_error, hd] <;>
        (try split_ifs) <;>
        simp_all

/-- C1: for a raw device mouse-motion event with delta (1, 2) received while
Running, `raw_mouse_motion_event` is invoked exactly once for the event — but
with arguments (1, 1), not the event's unfiltered per-event delta (1, 2):
line 477 of `src/app.rs` passes `delta.0` for both the dx and the dy
parameter of the callback, so the y component of the device delta is
dropped. -/
theorem C1_raw_motion_drops_dy :
    (device_event hOk ctx0 (DeviceEvent.mouseMotion 1 2)).calls
      = [Call.rawMouseMotionEvent 1 1]
    ∧ (device_event hOk ctx0 (DeviceEvent.mouseMotion 1 2)).calls
      ≠ [Call.rawMouseMotionEvent 1 2] := by
  constructor <;> decide

/-- C3 counterexample: the quit protocol run from a platform close-requested
window event with `quit_requested` already set and `quit_event` returning
`Ok(true)` leaves `quit_requested` set — the claim demands that it be false
afterwards on either trigger path. -/
theorem C3_close_requested_keeps_flag :
    (window_event hOk (set_quit ctx0 true) WindowEvent.closeRequested).ctx.fields.quit_requested
      = true := by
  decide

/-- C3 amended: on the tick-start trigger path, `quit_requested` is always
false after `new_events` (the protocol clears it for every `quit_event`
outcome, and it is untouched when it was already clear), so a cancelled quit
does not re-trigger the protocol on subsequent ticks; the close-requested
trigger path, by contrast, leaves `quit_requested` exactly as it was. -/
theorem C3_flag_cleared_on_tick_path (h : Handler) (ctx : Ctx) :
    (new_events h ctx).ctx.fields.quit_requested = false
    ∧ (window_event h ctx WindowEvent.closeRequested).ctx.fields.quit_requested
        = ctx.fields.quit_requested := by
  constructor
  · rcases hb : h.quitRes with _ | b
    · cases hq : ctx.fields.quit_requested <;>
        simp [new_events, catch_error, hq, hb]
    · cases b <;> cases hq : ctx.fields.quit_requested <;>
        simp [new_events, catch_error, hq, hb]
  · rcases hb : h.quitRes with _ | b
    · simp [window_event, process_window_event, catch_error, hb]
    · cases b <;> simp [window_event, process_window_event, catch_error, hb]

/-- C5: from `Starting`, a platform resume notification always yields
`Running` and invokes `load` exactly once — for every handler oracle,
including one whose `load` fails and whose `on_error` reports fatal — and a
resume notification while already `Running` is a complete no-op, with no
duplicate `load` call. -/
theorem C5_resumed_load_once (h : Handler) (ctx : Ctx) :
    (app_resumed h ⟨Phase.starting, ctx⟩).app.phase = Phase.running
    ∧ (app_resumed h ⟨Phase.starting, ctx⟩).calls.count Call.load = 1
    ∧ app_resumed h ⟨Phase.running, ctx⟩ = ⟨⟨Phase.running, ctx⟩, [], false⟩ := by
  refine ⟨?_, ?_, rfl⟩
  · cases he : h.loadErr <;> simp [app_resumed, catch_error, he]
  · cases he : h.loadErr <;>
      simp [app_resumed, catch_error, he, List.count_cons]

/-- C7: raw window and device events reach a user callback only while the
machine is `Running`; in `Starting` or `Suspended` the top-level dispatcher
drops the event without invoking anything and without touching any state. -/
theorem C7_dispatch_only_while_running (h : Handler) (ctx : Ctx)
    (e : WindowEvent) (d : DeviceEvent) :
    app_window_event h ⟨Phase.starting, ctx⟩ e = ⟨⟨Phase.starting, ctx⟩, [], false⟩
    ∧ app_window_event h ⟨Phase.suspended, ctx⟩ e = ⟨⟨Phase.suspended, ctx⟩, [], false⟩
    ∧ app_device_event h ⟨Phase.starting, ctx⟩ d = ⟨⟨Phase.starting, ctx⟩, [], false⟩
    ∧ app_device_event h ⟨Phase.suspended, ctx⟩ d = ⟨⟨Phase.suspended, ctx⟩, [], false⟩ :=
  ⟨rfl, rfl, rfl, rfl⟩

/-- C8: the default `touch_event` first moves the mouse position to the touch
location; a `Started` phase then presses the left mouse button and invokes
`mouse_button_down_event` with the left button at the touch coordinates; a
`Moved` phase invokes `mouse_motion_event` with the touch coordinates and the
accumulated mouse delta; `Ended` and `Cancelled` phases release the left
button and invoke `mouse_button_up_event` with the left button at the touch
coordinates. -/
theorem C8_touch_is_mouse_proxy (h : Handler) (ctx : Ctx) (x y : ℚ) :
    ((touch_event_default h ctx TouchPhase.started x y).1.mouse.pos_x = x
      ∧ (touch_event_default h ctx TouchPhase.started x y).1.mouse.pos_y = y
      ∧ MouseButton.left ∈ (touch_event_default h ctx TouchPhase.started x y).1.mouse.buttons
      ∧ (touch_event_default h ctx TouchPhase.started x y).2.1
          = [Call.mouseButtonDownEvent MouseButton.left x y])
    ∧ ((touch_event_default h ctx TouchPhase.moved x y).1.mouse.pos_x = x
      ∧ (touch_event_default h ctx TouchPhase.moved x y).1.mouse.pos_y = y
      ∧ (touch_event_default h ctx TouchPhase.moved x y).2.1
          = [Call.mouseMotionEvent x y (ctx.mouse.handle_move x y).delta_x
              (ctx.mouse.handle_move x y).delta_y])
    ∧ ((touch_event_default h ctx TouchPhase.ended x y).1.mouse.pos_x = x
      ∧ (touch_event_default h ctx TouchPhase.ended x y).1.mouse.pos_y = y
      ∧ MouseButton.left ∉ (touch_event_default h ctx TouchPhase.ended x y).1.mouse.buttons
      ∧ (touch_event_default h ctx TouchPhase.ended x y).2.1
          = [Call.mouseButtonUpEvent MouseButton.left x y])
    ∧ ((touch_event_default h ctx TouchPhase.cancelled x y).1.mouse.pos_x = x
      ∧ (touch_event_default h ctx TouchPhase.cancelled x y).1.mouse.pos_y = y
      ∧ MouseButton.left ∉ (touch_event_default h ctx TouchPhase.cancelled x y).1.mouse.buttons
      ∧ (touch_event_default h ctx TouchPhase.cancelled x y).2.1
          = [Call.mouseButtonUpEvent MouseButton.left x y]) := by
  refine ⟨⟨?_, ?_, ?_, rfl⟩, ⟨?_, ?_, rfl⟩, ⟨?_, ?_, ?_, rfl⟩, ⟨?_, ?_, ?_, rfl⟩⟩ <;>
    (simp [touch_event_default, MouseContext.handle_move, MouseContext.set_button,
       MouseContext.last_delta, List.mem_filter]
     try (split_ifs <;> simp_all))

/-- C2: the quit protocol, on both trigger paths.  From a Running machine
whose handler never fails `update`/`draw` and whose gamepad queue is empty:
when `quit_event` returns `Ok(true)`, `continuing` stays true and a
subsequent tick still drives `update` and `draw`; when it returns
`Ok(false)`, `continuing` becomes false and no `update` or `draw` runs
afterwards.  The first two conjuncts are the tick-start (`quit_requested`)
path, the last two the platform close-requested path. -/
theorem C2_quit_protocol (h : Handler) (ctx : Ctx)
    (hcont : ctx.fields.continuing = true)
    (hflag : ctx.fields.quit_requested = false)
    (hgp : ctx.gamepad = [])
    (hupd : h.updateErr = false) (hdraw : h.drawErr = false) :
    (h.quitRes = some true →
      (run_loop h ⟨Phase.running, set_quit ctx true⟩
          [PlatformEvent.newEvents, PlatformEvent.aboutToWait]).1.ctx.fields.continuing = true
      ∧ Call.update ∈ (run_loop h ⟨Phase.running, set_quit ctx true⟩
          [PlatformEvent.newEvents, PlatformEvent.aboutToWait]).2
      ∧ Call.draw ∈ (run_loop h ⟨Phase.running, set_quit ctx true⟩
          [PlatformEvent.newEvents, PlatformEvent.aboutToWait]).2)
    ∧ (h.quitRes = some false →
      (run_loop h ⟨Phase.running, set_quit ctx true⟩
          [PlatformEvent.newEvents, PlatformEvent.aboutToWait]).1.ctx.fields.continuing = false
      ∧ Call.update ∉ (run_loop h ⟨Phase.running, set_quit ctx true⟩
          [PlatformEvent.newEvents, PlatformEvent.aboutToWait]).2
      ∧ Call.draw ∉ (run_loop h ⟨Phase.running, set_quit ctx true⟩
          [PlatformEvent.newEvents, PlatformEvent.aboutToWait]).2)
    ∧ (h.quitRes = some true →
      (run_loop h ⟨Phase.running, ctx⟩
          [PlatformEvent.window WindowEvent.closeRequested,
           PlatformEvent.newEvents, PlatformEvent.aboutToWait]).1.ctx.fields.continuing = true
      ∧ Call.update ∈ (run_loop h ⟨Phase.running, ctx⟩
          [PlatformEvent.window WindowEvent.closeRequested,
           PlatformEvent.newEvents, PlatformEvent.aboutToWait]).2
      ∧ Call.draw ∈ (run_loop h ⟨Phase.running, ctx⟩
          [PlatformEvent.window WindowEvent.closeRequested,
           PlatformEvent.newEvents, PlatformEvent.aboutToWait]).2)
    ∧ (h.quitRes = some false →
      (run_loop h ⟨Phase.running, ctx⟩
          [PlatformEvent.window WindowEvent.closeRequested,
           PlatformEvent.newEvents, PlatformEvent.aboutToWait]).1.ctx.fields.continuing = false
      ∧ Call.update ∉ (run_loop h ⟨Phase.running, ctx⟩
          [PlatformEvent.window WindowEvent.closeRequested,
           PlatformEvent.newEvents, PlatformEvent.aboutToWait]).2
      ∧ Call.draw ∉ (run_loop h ⟨Phase.running, ctx⟩
          [PlatformEvent.window WindowEvent.closeRequested,
           PlatformEvent.newEvents, PlatformEvent.aboutToWait]).2) := by
  refine ⟨?_, ?_, ?_, ?_⟩ <;> intro hq <;>
    simp [run_loop, app_step, app_new_events, app_about_to_wait, app_window_event,
      new_events, about_to_wait, window_event, process_window_event, drain_gamepad,
      catch_error, frame_end_and_commit, set_quit, hcont, hflag, hgp, hupd, hdraw, hq]

/-- C2 witness: with the all-succeeding handler whose `quit_event` cancels
the quit, a tick that ran the quit protocol from the `quit_requested` flag
still drives `update` and `draw`. -/
theorem C2_quit_protocol_witness :
    Call.update ∈ (run_loop hOk ⟨Phase.running, set_quit ctx0 true⟩
        [PlatformEvent.newEvents, PlatformEvent.aboutToWait]).2
    ∧ Call.draw ∈ (run_loop hOk ⟨Phase.running, set_quit ctx0 true⟩
        [PlatformEvent.newEvents, PlatformEvent.aboutToWait]).2 :=
  ⟨((C2_quit_protocol hOk ctx0 rfl rfl rfl rfl rfl).1 rfl).2.1,
   ((C2_quit_protocol hOk ctx0 rfl rfl rfl rfl rfl).1 rfl).2.2⟩

/-- C4: in a tick whose gamepad drain does not abort and whose `update` error
(if any) is non-fatal, a `draw` error that `on_error` reports fatal means
`end_frame` is never invoked for the tick and loop exit is requested; a
non-fatal `draw` error still runs `end_frame`. -/
theorem C4_fatal_draw_skips_end_frame (h : Handler) (ctx : Ctx)
    (hga : (drain_gamepad h ctx.gamepad).2.2 = false)
    (hupd : h.updateErr = true → h.fatal ErrorOrigin.update = false)
    (hdraw : h.drawErr = true) :
    (h.fatal ErrorOrigin.draw = true →
      Call.endFrame ∉ (about_to_wait h ctx).calls ∧ (about_to_wait h ctx).exit = true)
    ∧ (h.fatal ErrorOrigin.draw = false →
      Call.endFrame ∈ (about_to_wait h ctx).calls) := by
  have hnd := endFrame_not_mem_drain h ctx.gamepad
  rcases hd : drain_gamepad h ctx.gamepad with ⟨gc, gr, gab⟩
  rw [hd] at hga hnd
  simp only [] at hga hnd
  constructor <;> intro hf
  · by_cases hu : h.updateErr = true
    · simp [about_to_wait, catch_error, hd, hga, hu, hupd hu, hdraw, hf, hnd]
    · simp [about_to_wait, catch_error, hd, hga, hu, hdraw, hf, hnd]
  · by_cases hu : h.updateErr = true
    · simp [about_to_wait, catch_error, frame_end_and_commit, hd, hga, hu, hupd hu,
        hdraw, hf]
    · simp [about_to_wait, catch_error, frame_end_and_commit, hd, hga, hu, hdraw, hf]

/-- A handler oracle whose `draw` fails (with the default always-fatal
`on_error`). -/
def hDrawFatal : Handler := { hOk with drawErr := true }

/-- C4 witness: a fatal draw error at the initial context skips `end_frame`
and requests exit. -/
theorem C4_fatal_draw_skips_end_frame_witness :
    Call.endFrame ∉ (about_to_wait hDrawFatal ctx0).calls
    ∧ (about_to_wait hDrawFatal ctx0).exit = true :=
  (C4_fatal_draw_skips_end_frame hDrawFatal ctx0 rfl (by decide) rfl).1 rfl

/-- C6: on a tick in which no fatal error aborts (the gamepad drain does not
abort, and any `update`/`draw` errors are reported non-fatal), the frame
drive's observable steps — errors' `on_error` notifications aside — are, in
order: clock tick; one callback per queued gamepad event, draining the whole
queue; `update`; `begin_frame`; `draw`; `end_frame`; then, exactly once and
strictly after `draw`: the mouse cumulative delta reset and the keyboard and
mouse previous-tick snapshot commits.  The final context has a zeroed mouse
delta and an empty gamepad queue. -/
theorem C6_tick_order (h : Handler) (ctx : Ctx)
    (hga : (drain_gamepad h ctx.gamepad).2.2 = false)
    (hupd : h.updateErr = true → h.fatal ErrorOrigin.update = false)
    (hdraw : h.drawErr = true → h.fatal ErrorOrigin.draw = false) :
    ((about_to_wait h ctx).calls.filter (fun c => !c.isOnError))
      = Call.timeTick :: (gamepad_calls ctx.gamepad ++
          [Call.update, Call.beginFrame, Call.draw, Call.endFrame,
           Call.resetDelta, Call.saveKeyboardState, Call.saveMouseState])
    ∧ (about_to_wait h ctx).ctx.mouse.delta_x = 0
    ∧ (about_to_wait h ctx).ctx.mouse.delta_y = 0
    ∧ (about_to_wait h ctx).ctx.gamepad = [] := by
  obtain ⟨hfilter, hrem⟩ := drain_gamepad_no_abort h ctx.gamepad hga
  rcases hd : drain_gamepad h ctx.gamepad with ⟨gc, gr, gab⟩
  rw [hd] at hga hfilter hrem
  simp only [Call.isOnError] at hga hfilter hrem
  by_cases hu : h.updateErr = true <;> by_cases hdr : h.drawErr = true
  · simp [about_to_wait, catch_error, frame_end_and_commit, hd, hga, hu, hdr,
      hupd hu, hdraw hdr, hfilter, hrem, Call.isOnError, MouseContext.reset_delta,
      MouseContext.save_state, KeyboardContext.save_state]
  · simp [about_to_wait, catch_error, frame_end_and_commit, hd, hga, hu, hdr,
      hupd hu, hfilter, hrem, Call.isOnError, MouseContext.reset_delta,
      MouseContext.save_state, KeyboardContext.save_state]
  · simp [about_to_wait, catch_error, frame_end_and_commit, hd, hga, hu, hdr,
      hdraw hdr, hfilter, hrem, Call.isOnError, MouseContext.reset_delta,
      MouseContext.save_state, KeyboardContext.save_state]
  · simp [about_to_wait, catch_error, frame_end_and_commit, hd, hga, hu, hdr,
      hfilter, hrem, Call.isOnError, MouseContext.reset_delta,
      MouseContext.save_state, KeyboardContext.save_state]

/-- A context with one queued gamepad event. -/
def ctxG : Ctx := { ctx0 with gamepad := [(0, GamepadEventType.buttonPressed 1)] }

/-- C6 witness: the fully evaluated tick order at a context with one queued
gamepad event. -/
theorem C6_tick_order_witness :
    ((about_to_wait hOk ctxG).calls.filter (fun c => !c.isOnError))
      = Call.timeTick :: (gamepad_calls ctxG.gamepad ++
          [Call.update, Call.beginFrame, Call.draw, Call.endFrame,
           Call.resetDelta, Call.saveKeyboardState, Call.saveMouseState]) :=
  (C6_tick_order hOk ctxG (by decide) (by decide) (by decide)).1

/-- C9: when `begin_frame` fails on a tick that is not otherwise aborted,
loop exit is requested, but the tick is not cut short at that point: `draw`
and `end_frame` are still invoked within the same tick. -/
theorem C9_begin_frame_error_continues (h : Handler) (ctx : Ctx)
    (hga : (drain_gamepad h ctx.gamepad).2.2 = false)
    (hupd : h.updateErr = true → h.fatal ErrorOrigin.update = false)
    (hdraw : h.drawErr = true → h.fatal ErrorOrigin.draw = false)
    (hbf : h.beginFrameErr = true) :
    (about_to_wait h ctx).exit = true
    ∧ Call.draw ∈ (about_to_wait h ctx).calls
    ∧ Call.endFrame ∈ (about_to_wait h ctx).calls := by
  rcases hd : drain_gamepad h ctx.gamepad with ⟨gc, gr, gab⟩
  rw [hd] at hga
  simp only [] at hga
  by_cases hu : h.updateErr = true <;> by_cases hdr : h.drawErr = true
  · simp [about_to_wait, catch_error, frame_end_and_commit, hd, hga, hu, hdr,
      hupd hu, hdraw hdr, hbf]
  · simp [about_to_wait, catch_error, frame_end_and_commit, hd, hga, hu, hdr,
      hupd hu, hbf]
  · simp [about_to_wait, catch_error, frame_end_and_commit, hd, hga, hu, hdr,
      hdraw hdr, hbf]
  · simp [about_to_wait, catch_error, frame_end_and_commit, hd, hga, hu, hdr, hbf]

/-- A handler oracle on which only `begin_frame` fails. -/
def hBeginErr : Handler := { hOk with beginFrameErr := true }

/-- C9 witness: at the initial context with a failing `begin_frame`, exit is
requested while `draw` and `end_frame` still run. -/
theorem C9_begin_frame_error_continues_witness :
    (about_to_wait hBeginErr ctx0).exit = true
    ∧ Call.draw ∈ (about_to_wait hBeginErr ctx0).calls
    ∧ Call.endFrame ∈ (about_to_wait hBeginErr ctx0).calls :=
  C9_begin_frame_error_continues hBeginErr ctx0 (by decide) (by decide) (by decide) rfl

end Ggez
